import Mathlib

/-!
Verification development for the WALC WhatsApp client core
(`src/WhatsBot/src/Client.js`).

The file gives a shallow embedding of the Client class's Event Bridge
(the `page.exposeFunction` handlers registered in `initialize`), the
Command Bridge send path (the `page.evaluate` body of `sendMessage`),
the bootstrap sequence of `initialize`, and `destroy`, and proves the
spec's testable properties about them.

Modelling conventions:
* Message records carry only the fields the handlers inspect
  (`isNewMsg`, `type`, `subtype`, `id.id`, `id.fromMe`); a JS field that
  may be `undefined` (such as `subtype`) is modelled as the empty string,
  which is distinct from every compared literal.
* `new Message(this, msg)` / `new GroupNotification(this, msg)` only wrap
  the raw record, so event payloads carry the raw record itself.
* External collaborators injected into the page (`window.WWebJS.getNumberId`,
  `window.WWebJS.sendMessage`) live in `Injected.js`, which is not part of
  the sources; they are taken as opaque function parameters.
* A JS `throw` of a string and a TypeError from dereferencing `undefined`
  are distinguished as two constructors of `JsError`.
-/

set_option autoImplicit false

namespace WALC

/-- The `msg.id` object: the handlers read `id.id` and `id.fromMe`. -/
structure MsgId where
  id : String
  fromMe : Bool
  deriving DecidableEq, Repr

/-- A raw in-page message record, restricted to the fields the Client's
handlers inspect. `subtype` is the empty string when the JS field is
`undefined`. -/
structure MsgRecord where
  isNewMsg : Bool
  type : String
  subtype : String
  id : MsgId
  deriving DecidableEq, Repr

/-- The four session tokens read from the page's local storage
(`Client.js` lines 57-62); a key absent from local storage is `none`. -/
structure Session where
  WABrowserId : Option String
  WASecretBundle : Option String
  WAToken1 : Option String
  WAToken2 : Option String
  deriving DecidableEq, Repr

/-- External events emitted by the Client (`this.emit(...)` calls),
with their payloads. -/
inductive Event where
  | authenticated (s : Session)
  | ready
  | group_join (m : MsgRecord)
  | group_leave (m : MsgRecord)
  | group_update (m : MsgRecord)
  | message_create (m : MsgRecord)
  | message_received (m : MsgRecord)
  | message_revoked_everyone (current : MsgRecord) (previous : Option MsgRecord)
  | message_revoked_me (m : MsgRecord)
  | message_ack (m : MsgRecord) (ack : Int)
  | state_changed (s : String)
  | disconnected (s : String)
  deriving DecidableEq, Repr

/-- An observable action of a handler: emit an event, or call
`this.destroy()`. -/
inductive Action where
  | emit (e : Event)
  | destroy
  deriving DecidableEq, Repr

/-- Handler `onAddMessageEvent` (`Client.js` lines 83-130): skip records
not marked new; a `gp2` record yields exactly one group event chosen by
its subtype and returns before `message_create`; otherwise emit
`message_create`, then `message_received` unless `msg.id.fromMe`. -/
def onAddMessageEvent (msg : MsgRecord) : List Action :=
  if !msg.isNewMsg then []
  else if msg.type = "gp2" then
    if msg.subtype = "add" ∨ msg.subtype = "invite" then
      [.emit (.group_join msg)]
    else if msg.subtype = "remove" ∨ msg.subtype = "leave" then
      [.emit (.group_leave msg)]
    else
      [.emit (.group_update msg)]
  else if msg.id.fromMe then
    [.emit (.message_create msg)]
  else
    [.emit (.message_create msg), .emit (.message_received msg)]

/-- Handler `onChangeMessageTypeEvent` (`Client.js` lines 134-153): on a
record of type `revoked`, emit `message_revoke_everyone` carrying the
current record and, only when a cached `last_message` exists whose
`id.id` matches, that cached record; otherwise the second payload is
absent. -/
def onChangeMessageTypeEvent (last_message : Option MsgRecord) (msg : MsgRecord) :
    List Action :=
  if msg.type = "revoked" then
    let revoked_msg : Option MsgRecord :=
      match last_message with
      | some l => if msg.id.id = l.id.id then some l else none
      | none => none
    [.emit (.message_revoked_everyone msg revoked_msg)]
  else []

/-- Handler `onChangeMessageEvent` (`Client.js` lines 155-161): cache the
record as `last_message` unless its type is `revoked`; emits nothing. -/
def onChangeMessageEvent (last_message : Option MsgRecord) (msg : MsgRecord) :
    Option MsgRecord :=
  if msg.type ≠ "revoked" then some msg else last_message

/-- Handler `onRemoveMessageEvent` (`Client.js` lines 163-176): skip
records not marked new; otherwise emit `message_revoke_me`. -/
def onRemoveMessageEvent (msg : MsgRecord) : List Action :=
  if !msg.isNewMsg then []
  else [.emit (.message_revoked_me msg)]

/-- Handler `onMessageAckEvent` (`Client.js` lines 178-190): always emit
`message_ack` with the record and the new ack value; no filtering and no
state. -/
def onMessageAckEvent (msg : MsgRecord) (ack : Int) : List Action :=
  [.emit (.message_ack msg ack)]

/-- The list `ACCEPTED_STATES` (`Client.js` line 201). The four labels are the
`WAState` string constants; `Constants.js` is not among the sources, so
the values are modelled from the spec's state set
{CONNECTED, OPENING, PAIRING, TIMEOUT}. -/
def ACCEPTED_STATES : List String := ["CONNECTED", "OPENING", "PAIRING", "TIMEOUT"]

/-- Handler `onAppStateChangedEvent` (`Client.js` lines 192-211): always
emit `state_changed`; when the state is outside `ACCEPTED_STATES`, also
emit `disconnected` and then call `this.destroy()`. -/
def onAppStateChangedEvent (state : String) : List Action :=
  [.emit (.state_changed state)] ++
    (if !ACCEPTED_STATES.contains state then
      [.emit (.disconnected state), .destroy]
    else [])

/-- An in-page store notification, as wired by the `page.evaluate` block
at `Client.js` lines 213-220: `add`, `change`, `change:type`,
`change:ack`, `remove` on `Store.Msg`, and `change:state` on
`Store.AppState`. -/
inductive Notification where
  | add (m : MsgRecord)
  | change (m : MsgRecord)
  | changeType (m : MsgRecord)
  | remove (m : MsgRecord)
  | ack (m : MsgRecord) (a : Int)
  | appState (s : String)
  deriving DecidableEq, Repr

/-- Dispatch one notification: thread the `last_message` cache and
collect the handler's actions. The `add` and `remove` wirings apply the
page-side `if (msg.isNewMsg)` guard (`Client.js` lines 214 and 218)
before the host handler runs. -/
def step (last_message : Option MsgRecord) :
    Notification → Option MsgRecord × List Action
  | .add m => (last_message, if m.isNewMsg then onAddMessageEvent m else [])
  | .change m => (onChangeMessageEvent last_message m, [])
  | .changeType m => (last_message, onChangeMessageTypeEvent last_message m)
  | .remove m => (last_message, if m.isNewMsg then onRemoveMessageEvent m else [])
  | .ack m a => (last_message, onMessageAckEvent m a)
  | .appState s => (last_message, onAppStateChangedEvent s)

/-- Process a sequence of notifications in arrival order, concatenating
the emitted actions. -/
def processNotifs (last_message : Option MsgRecord) :
    List Notification → Option MsgRecord × List Action
  | [] => (last_message, [])
  | n :: ns =>
    let r := step last_message n
    let rest := processNotifs r.1 ns
    (rest.1, r.2 ++ rest.2)

/-- A failure inside a `page.evaluate` body: an explicitly `throw`n
string, or a TypeError from dereferencing `undefined` (as in
`msg.serialize()` when `msg` was never assigned), or a ReferenceError
from an identifier not bound in any enclosing scope. -/
inductive JsError where
  | thrown (s : String)
  | typeError
  | referenceError (name : String)
  deriving DecidableEq, Repr

instance exceptDecEq {ε α : Type} [DecidableEq ε] [DecidableEq α] :
    DecidableEq (Except ε α) := fun x y =>
  match x, y with
  | .ok a, .ok b =>
    if h : a = b then .isTrue (by rw [h])
    else .isFalse (by intro hc; cases hc; exact h rfl)
  | .ok _, .error _ => .isFalse (by intro hc; cases hc)
  | .error _, .ok _ => .isFalse (by intro hc; cases hc)
  | .error e, .error f =>
    if h : e = f then .isTrue (by rw [h])
    else .isFalse (by intro hc; cases hc; exact h rfl)

/-- An in-page chat object: its `id` (in serialized form) plus all its
other fields, kept abstract as `rest` so theorems can state that the
borrowing path touches nothing but the id. -/
structure Chat (α : Type) where
  id : String
  rest : α
  deriving DecidableEq, Repr

/-- The string thrown at `Client.js` line 291. -/
def chatListEmptyError : String :=
  "Chat List empty! Need at least one open conversation with any of your contact"

/-- Result of the `sendMessage` evaluate body: the final state of
`window.Store.Chat.models`, the chat ids passed to
`window.WWebJS.sendSeen`, and the serialized message or the error. -/
structure SendResult (α : Type) where
  chats : List (Chat α)
  seenCalls : List String
  outcome : Except JsError String
  deriving DecidableEq, Repr

/-- The `page.evaluate` body of `sendMessage` (`Client.js` lines
280-308). `chats` is `window.Store.Chat.models` (and `Store.Chat.get`
looks a chat up in it by id); `getNumberId` and `wwebSend` are the
injected helpers `window.WWebJS.getNumberId` and
`window.WWebJS.sendMessage` composed with `.serialize()`, opaque here
because `Injected.js` is not among the sources (`options` and the extra
`sendSeen` argument ride through them unchanged and are folded into
`wwebSend`).

If the chat is absent and `getNumberId` resolves, the body takes
`Store.Chat.models[0]`, throws `chatListEmptyError` when there is none,
otherwise assigns the resolved id to it, sends against that object, and
assigns the original id back. If the chat is absent and `getNumberId`
returns null, `msg` is never assigned and the final `msg.serialize()`
dereferences `undefined`. If the chat is present, `sendSeen` is called
first when the flag is set, then the send runs against the chat. -/
def sendMessagePage {α : Type} (chats : List (Chat α))
    (getNumberId : String → Option String)
    (wwebSend : Chat α → String → String)
    (chatId : String) (message : String) (sendSeen : Bool) : SendResult α :=
  match chats.find? (fun c => c.id == chatId) with
  | none =>
    match getNumberId chatId with
    | some newChatId =>
      match chats with
      | [] => ⟨chats, [], .error (.thrown chatListEmptyError)⟩
      | chat :: restChats =>
        let originalChatObjId := chat.id
        let borrowed := { chat with id := newChatId }
        let msg := wwebSend borrowed message
        ⟨{ borrowed with id := originalChatObjId } :: restChats, [], .ok msg⟩
    | none => ⟨chats, [], .error .typeError⟩
  | some chat =>
    ⟨chats, if sendSeen then [chatId] else [], .ok (wwebSend chat message)⟩

/-- An operation `destroy` performs on the page/browser. -/
inductive PageOp where
  | waitForSelector (selector : String) (timeoutMs : Nat)
  | closeBrowser
  deriving DecidableEq, Repr

/-- The constant `KEEP_PHONE_CONNECTED_IMG_SELECTOR` (`Client.js` line 237). -/
def KEEP_PHONE_CONNECTED_IMG_SELECTOR : String := "[data-asset-intro-image=\"true\"]"

/-- Identifiers bound at module scope of `Client.js` (its `require` and
destructuring `const` declarations, lines 3-12, and the class name). -/
def moduleScopeNames : List String :=
  ["EventEmitter", "puppeteer", "moduleRaid", "Util",
   "WhatsWebURL", "UserAgent", "DefaultOptions", "Events", "WAState",
   "ExposeStore", "LoadUtils", "ChatFactory", "ContactFactory",
   "ClientInfo", "Message", "MessageMedia", "Location", "GroupNotification",
   "Client"]

/-- Identifiers visible inside the body of `destroy()` (`Client.js`
lines 235-239): its one local `const` plus the module scope. The method
has no parameters, and `page` is a parameter of `initialize` only, so it
is not among them. -/
def destroyScope : List String :=
  "KEEP_PHONE_CONNECTED_IMG_SELECTOR" :: moduleScopeNames

/-- The body of `destroy()` (`Client.js` lines 235-239): the
`this.pupBrowser.close()` call is commented out, and the one live
statement awaits `page.waitForSelector(KEEP_PHONE_CONNECTED_IMG_SELECTOR,
{ timeout: 0 })` — after resolving the free identifier `page`, which
fails when `page` is bound in no enclosing scope. -/
def destroyRun : Except JsError (List PageOp) :=
  if destroyScope.contains "page" then
    .ok [.waitForSelector KEEP_PHONE_CONNECTED_IMG_SELECTOR 0]
  else
    .error (.referenceError "page")

/-- The flat local-storage snapshot read during bootstrap, restricted to
the four keys `initialize` extracts. -/
structure LocalStorage where
  WABrowserId : Option String
  WASecretBundle : Option String
  WAToken1 : Option String
  WAToken2 : Option String
  deriving DecidableEq, Repr

/-- Session construction (`Client.js` lines 57-62). -/
def mkSession (ls : LocalStorage) : Session :=
  ⟨ls.WABrowserId, ls.WASecretBundle, ls.WAToken1, ls.WAToken2⟩

/-- Outcomes of the awaited steps of `Client.initialize` (`Client.js`
lines 44-230), each given as its result or the exception it raises:
the `ExposeStore` injection (line 47), the local-storage read (line 53),
the `window.Store` readiness wait (line 72), the `LoadUtils` helper
injection (line 75), and the `Store.Conn.serialize()` fetch (line 78).
The `page.exposeFunction` registrations and the final wiring
`page.evaluate` are host-side plumbing modelled as non-failing. -/
structure BootstrapSteps where
  exposeStore : Except String Unit
  localStorage : Except String LocalStorage
  waitStore : Except String Unit
  loadUtils : Except String Unit
  connSerialize : Except String Unit
  deriving Repr

/-- What a run of `initialize` produces: the `console.log` lines, the
events emitted before returning or raising, and the returned value or
the propagated exception. -/
structure InitResult where
  logs : List String
  events : List Event
  outcome : Except String Unit
  deriving DecidableEq, Repr

/-- The method `Client.initialize` (`Client.js` lines 44-230): only the first
injection is inside a `try { ... } catch(e) { console.log(e) }`; each
later step is awaited bare, so its exception aborts the method. The
`authenticated` event fires right after the local-storage read, `ready`
fires last. -/
def initClient (s : BootstrapSteps) : InitResult :=
  let logs : List String :=
    match s.exposeStore with
    | .error e => [e]
    | .ok _ => []
  match s.localStorage with
  | .error e => ⟨logs, [], .error e⟩
  | .ok ls =>
    let events := [Event.authenticated (mkSession ls)]
    match s.waitStore with
    | .error e => ⟨logs, events, .error e⟩
    | .ok _ =>
      match s.loadUtils with
      | .error e => ⟨logs, events, .error e⟩
      | .ok _ =>
        match s.connSerialize with
        | .error e => ⟨logs, events, .error e⟩
        | .ok _ => ⟨logs, events ++ [Event.ready], .ok ()⟩

/-- C1: a non-revoked change of message X followed by a type change of X
to revoked emits `message_revoked_everyone` carrying, as previous state,
exactly the record snapshotted at the first change; a type change to
revoked with no matching record cached (nothing cached, or a different
id cached) emits the event with the previous state absent. -/
theorem C1_revocation_reconstruction (last : Option MsgRecord) (m1 m2 : MsgRecord) :
    (m1.type ≠ "revoked" → m2.type = "revoked" → m2.id.id = m1.id.id →
      processNotifs last [.change m1, .changeType m2]
        = (some m1, [.emit (.message_revoked_everyone m2 (some m1))])) ∧
    (m2.type = "revoked" → (∀ l, last = some l → l.id.id ≠ m2.id.id) →
      processNotifs last [.changeType m2]
        = (last, [.emit (.message_revoked_everyone m2 none)])) := by
  constructor
  · intro h1 h2 h3
    simp [processNotifs, step, onChangeMessageEvent, onChangeMessageTypeEvent, h1, h2, h3]
  · intro h2 hl
    cases last with
    | none => simp [processNotifs, step, onChangeMessageTypeEvent, h2]
    | some l =>
      simp [processNotifs, step, onChangeMessageTypeEvent, h2, (hl l rfl).symm]

/-- Witness for C1 at concrete records: message X changed then revoked
reconstructs the snapshot; message Y revoked with an empty cache
carries no previous state. -/
theorem C1_witness :
    processNotifs none
        [.change ⟨true, "chat", "", ⟨"X", false⟩⟩,
         .changeType ⟨true, "revoked", "", ⟨"X", false⟩⟩]
      = (some ⟨true, "chat", "", ⟨"X", false⟩⟩,
         [.emit (.message_revoked_everyone ⟨true, "revoked", "", ⟨"X", false⟩⟩
            (some ⟨true, "chat", "", ⟨"X", false⟩⟩))]) ∧
    processNotifs none [.changeType ⟨true, "revoked", "", ⟨"Y", false⟩⟩]
      = (none, [.emit (.message_revoked_everyone ⟨true, "revoked", "", ⟨"Y", false⟩⟩ none)]) :=
  ⟨(C1_revocation_reconstruction none ⟨true, "chat", "", ⟨"X", false⟩⟩
      ⟨true, "revoked", "", ⟨"X", false⟩⟩).1 (by decide) rfl rfl,
   (C1_revocation_reconstruction none ⟨true, "chat", "", ⟨"X", false⟩⟩
      ⟨true, "revoked", "", ⟨"Y", false⟩⟩).2 rfl (by intro l h; cases h)⟩

/-- C3: a connection-state notification with a state in ACCEPTED_STATES
emits only `state_changed`; with any state outside it, it emits
`state_changed`, then `disconnected`, and then initiates teardown by
calling destroy. -/
theorem C3_connection_state_events (s : String) :
    (ACCEPTED_STATES.contains s = true →
      onAppStateChangedEvent s = [.emit (.state_changed s)]) ∧
    (ACCEPTED_STATES.contains s = false →
      onAppStateChangedEvent s
        = [.emit (.state_changed s), .emit (.disconnected s), .destroy]) := by
  constructor <;> intro h <;> simp [onAppStateChangedEvent, h] <;> simpa using h

/-- Witness for C3 at the accepted state CONNECTED and the
non-accepted state CONFLICT. -/
theorem C3_witness :
    onAppStateChangedEvent "CONNECTED" = [.emit (.state_changed "CONNECTED")] ∧
    onAppStateChangedEvent "CONFLICT"
      = [.emit (.state_changed "CONFLICT"), .emit (.disconnected "CONFLICT"), .destroy] :=
  ⟨(C3_connection_state_events "CONNECTED").1 (by decide),
   (C3_connection_state_events "CONFLICT").2 (by decide)⟩

/-- Counterexample to C4 as stated: a record marked new whose type is
`gp2` is a 'message added' notification for which `message_create` does
not fire — the handler emits a group event and returns first. -/
theorem C4_counterexample :
    Action.emit (.message_create ⟨true, "gp2", "subject", ⟨"A", false⟩⟩)
        ∉ onAddMessageEvent ⟨true, "gp2", "subject", ⟨"A", false⟩⟩ ∧
    onAddMessageEvent ⟨true, "gp2", "subject", ⟨"A", false⟩⟩
      = [.emit (.group_update ⟨true, "gp2", "subject", ⟨"A", false⟩⟩)] := by
  decide

/-- C4 amended: for every 'message added' notification marked new whose
record type is not `gp2`, `message_create` fires, and
`message_received` fires exactly when the message's origin is not the
local user. -/
theorem C4_message_create_received (m : MsgRecord)
    (hnew : m.isNewMsg = true) (hty : m.type ≠ "gp2") :
    Action.emit (.message_create m) ∈ onAddMessageEvent m ∧
    (m.id.fromMe = false → Action.emit (.message_received m) ∈ onAddMessageEvent m) ∧
    (m.id.fromMe = true → Action.emit (.message_received m) ∉ onAddMessageEvent m) := by
  cases hfm : m.id.fromMe <;> simp [onAddMessageEvent, hnew, hty, hfm]

/-- Witness for C4 at concrete records: a non-group message from the
local user gets `message_create` but no `message_received`; one from
another user gets `message_received` too. -/
theorem C4_witness :
    Action.emit (.message_create ⟨true, "chat", "", ⟨"A", true⟩⟩)
        ∈ onAddMessageEvent ⟨true, "chat", "", ⟨"A", true⟩⟩ ∧
    Action.emit (.message_received ⟨true, "chat", "", ⟨"A", true⟩⟩)
        ∉ onAddMessageEvent ⟨true, "chat", "", ⟨"A", true⟩⟩ ∧
    Action.emit (.message_received ⟨true, "chat", "", ⟨"B", false⟩⟩)
        ∈ onAddMessageEvent ⟨true, "chat", "", ⟨"B", false⟩⟩ :=
  ⟨(C4_message_create_received ⟨true, "chat", "", ⟨"A", true⟩⟩ rfl (by decide)).1,
   (C4_message_create_received ⟨true, "chat", "", ⟨"A", true⟩⟩ rfl (by decide)).2.2 rfl,
   (C4_message_create_received ⟨true, "chat", "", ⟨"B", false⟩⟩ rfl (by decide)).2.1 rfl⟩

/-- C8: a record with `isNewMsg` false produces no event from the add
handler or the remove handler, both at handler level and through the
page-side wiring guards. -/
theorem C8_not_new_no_events (m : MsgRecord) (h : m.isNewMsg = false) :
    onAddMessageEvent m = [] ∧ onRemoveMessageEvent m = [] ∧
    (∀ last, step last (.add m) = (last, []) ∧ step last (.remove m) = (last, [])) := by
  refine ⟨?_, ?_, fun last => ⟨?_, ?_⟩⟩ <;>
    simp [onAddMessageEvent, onRemoveMessageEvent, step, h]

/-- Witness for C8 at a concrete record with `isNewMsg` false. -/
theorem C8_witness :
    onAddMessageEvent ⟨false, "chat", "", ⟨"A", false⟩⟩ = [] ∧
    onRemoveMessageEvent ⟨false, "chat", "", ⟨"A", false⟩⟩ = [] :=
  ⟨(C8_not_new_no_events ⟨false, "chat", "", ⟨"A", false⟩⟩ rfl).1,
   (C8_not_new_no_events ⟨false, "chat", "", ⟨"A", false⟩⟩ rfl).2.1⟩

/-- C9: delivering the same ack notification twice yields two
`message_ack` events with identical payloads, with no deduplication and
no effect on the bridge's cache. -/
theorem C9_ack_no_dedup (last : Option MsgRecord) (m : MsgRecord) (a : Int) :
    processNotifs last [.ack m a, .ack m a]
      = (last, [.emit (.message_ack m a), .emit (.message_ack m a)]) := by
  simp [processNotifs, step, onMessageAckEvent]

/-- C10: a record marked new of type `gp2` yields exactly one group
event — `group_join` for subtype add/invite, `group_leave` for
remove/leave, `group_update` otherwise — and neither `message_create`
nor `message_received`. -/
theorem C10_group_notification_events (m : MsgRecord)
    (hnew : m.isNewMsg = true) (hty : m.type = "gp2") :
    onAddMessageEvent m
      = [.emit (if m.subtype = "add" ∨ m.subtype = "invite" then .group_join m
          else if m.subtype = "remove" ∨ m.subtype = "leave" then .group_leave m
          else .group_update m)] ∧
    Action.emit (.message_create m) ∉ onAddMessageEvent m ∧
    Action.emit (.message_received m) ∉ onAddMessageEvent m := by
  have hout : onAddMessageEvent m
      = [.emit (if m.subtype = "add" ∨ m.subtype = "invite" then .group_join m
          else if m.subtype = "remove" ∨ m.subtype = "leave" then .group_leave m
          else .group_update m)] := by
    by_cases h1 : m.subtype = "add" ∨ m.subtype = "invite"
    · simp [onAddMessageEvent, hnew, hty, h1]
    · by_cases h2 : m.subtype = "remove" ∨ m.subtype = "leave" <;>
        simp [onAddMessageEvent, hnew, hty, h1, h2]
  refine ⟨hout, ?_, ?_⟩ <;> rw [hout] <;> split_ifs <;> simp

/-- Witness for C10 at a concrete `gp2` record with subtype add. -/
theorem C10_witness :
    onAddMessageEvent ⟨true, "gp2", "add", ⟨"A", false⟩⟩
      = [.emit (.group_join ⟨true, "gp2", "add", ⟨"A", false⟩⟩)] ∧
    Action.emit (.message_create ⟨true, "gp2", "add", ⟨"A", false⟩⟩)
        ∉ onAddMessageEvent ⟨true, "gp2", "add", ⟨"A", false⟩⟩ := by
  have h := C10_group_notification_events ⟨true, "gp2", "add", ⟨"A", false⟩⟩ rfl rfl
  exact ⟨by rw [h.1]; simp, h.2.1⟩

/-- Counterexample to C2 as stated: with an empty chat list and an
unresolvable destination, the evaluate body never reaches the
`Chat List empty!` throw (it sits inside `if (newChatId)`), falls
through with `msg` unassigned, and fails at `msg.serialize()` with a
generic evaluation failure instead of the structural error. -/
theorem C2_counterexample :
    (sendMessagePage ([] : List (Chat Unit)) (fun _ => none) (fun _ _ => "")
        "123" "hi" true).outcome = .error .typeError ∧
    (JsError.typeError ≠ .thrown chatListEmptyError) :=
  ⟨rfl, by decide⟩

/-- C2 amended: with the destination chat absent and the chat list
empty, the structural `Chat List empty!` error is thrown exactly when
the destination is resolvable to a canonical identity; when it is
unresolvable the call instead fails with a generic evaluation failure
(dereferencing the unassigned `msg`). In both cases the store is not
mutated and no sendSeen call is made. -/
theorem C2_empty_chat_list_failure {α : Type}
    (getNumberId : String → Option String) (wwebSend : Chat α → String → String)
    (chatId message : String) (sendSeen : Bool) :
    ((∃ nid, getNumberId chatId = some nid) →
      sendMessagePage ([] : List (Chat α)) getNumberId wwebSend chatId message sendSeen
        = ⟨[], [], .error (.thrown chatListEmptyError)⟩) ∧
    (∀ chats : List (Chat α), chats.find? (fun c => c.id == chatId) = none →
      getNumberId chatId = none →
      sendMessagePage chats getNumberId wwebSend chatId message sendSeen
        = ⟨chats, [], .error .typeError⟩) := by
  constructor
  · rintro ⟨nid, hres⟩
    simp [sendMessagePage, hres]
  · intro chats habs hres
    simp [sendMessagePage, habs, hres]

/-- Witness for C2 amended: a resolvable destination with zero chats
raises the structural error; an unresolvable one with one (other) chat
raises the generic failure, both without mutation. -/
theorem C2_witness :
    sendMessagePage ([] : List (Chat Unit)) (fun _ => some "123@c.us") (fun _ _ => "m")
        "123" "hi" true
      = ⟨[], [], .error (.thrown chatListEmptyError)⟩ ∧
    sendMessagePage [(⟨"1@c.us", ()⟩ : Chat Unit)] (fun _ => none) (fun _ _ => "m")
        "123" "hi" true
      = ⟨[⟨"1@c.us", ()⟩], [], .error .typeError⟩ :=
  ⟨(C2_empty_chat_list_failure (fun _ => some "123@c.us") (fun _ _ => "m")
      "123" "hi" true).1 ⟨"123@c.us", rfl⟩,
   (C2_empty_chat_list_failure (fun _ => none) (fun _ _ => "m")
      "123" "hi" true).2 [⟨"1@c.us", ()⟩] rfl rfl⟩

/-- C7: on the identity-borrowing path (destination absent, resolvable,
at least one chat), the send runs against the first chat object carrying
the resolved identity, and the final chat list equals the original one:
the borrowed chat's id is restored and its other fields were never
touched. -/
theorem C7_identity_borrowing {α : Type} (chat0 : Chat α) (restChats : List (Chat α))
    (getNumberId : String → Option String) (wwebSend : Chat α → String → String)
    (chatId message : String) (sendSeen : Bool) (nid : String)
    (habs : (chat0 :: restChats).find? (fun c => c.id == chatId) = none)
    (hres : getNumberId chatId = some nid) :
    sendMessagePage (chat0 :: restChats) getNumberId wwebSend chatId message sendSeen
      = ⟨chat0 :: restChats, [], .ok (wwebSend { chat0 with id := nid } message)⟩ := by
  simp [sendMessagePage, habs, hres]

/-- Witness for C7: chat "123" absent but resolvable to "123@c.us" with
one existing chat; the send uses the borrowed identity and the chat list
comes back unchanged. -/
theorem C7_witness :
    sendMessagePage [(⟨"1@c.us", 7⟩ : Chat Nat)] (fun _ => some "123@c.us")
        (fun c m => c.id ++ ":" ++ m) "123" "hi" true
      = ⟨[⟨"1@c.us", 7⟩], [], .ok "123@c.us:hi"⟩ :=
  C7_identity_borrowing ⟨"1@c.us", 7⟩ [] (fun _ => some "123@c.us")
    (fun c m => c.id ++ ":" ++ m) "123" "hi" true "123@c.us" rfl rfl

/-- C5, on the code as written: the one live statement of `destroy()`
reads the identifier `page`, which is bound in no enclosing scope of the
method (`initialize` alone has a `page` parameter; the instance field is
`this.pupPage`), so every call to `destroy()` raises a ReferenceError
instead of waiting on the keep-phone-connected selector. -/
theorem C5_destroy_unbound_page :
    destroyRun = .error (.referenceError "page") ∧
    destroyScope.contains "page" = false := by
  decide

/-- C6: a failure of the first injection is logged and changes neither
the emitted events nor the outcome of the bootstrap, while a failure in
any later step (local-storage read, store-ready wait, helper injection,
connection-descriptor fetch) propagates as the outcome and the `ready`
event is never emitted. -/
theorem C6_bootstrap_error_handling (s : BootstrapSteps) :
    (∀ e, s.exposeStore = .error e →
      (initClient s).logs = [e] ∧
      (initClient s).events = (initClient { s with exposeStore := .ok () }).events ∧
      (initClient s).outcome = (initClient { s with exposeStore := .ok () }).outcome) ∧
    (∀ e, s.localStorage = .error e →
      (initClient s).outcome = .error e ∧ Event.ready ∉ (initClient s).events) ∧
    (∀ ls e, s.localStorage = .ok ls → s.waitStore = .error e →
      (initClient s).outcome = .error e ∧ Event.ready ∉ (initClient s).events) ∧
    (∀ ls e, s.localStorage = .ok ls → s.waitStore = .ok () → s.loadUtils = .error e →
      (initClient s).outcome = .error e ∧ Event.ready ∉ (initClient s).events) ∧
    (∀ ls e, s.localStorage = .ok ls → s.waitStore = .ok () → s.loadUtils = .ok () →
      s.connSerialize = .error e →
      (initClient s).outcome = .error e ∧ Event.ready ∉ (initClient s).events) := by
  obtain ⟨es, lsx, ws, lu, cs⟩ := s
  refine ⟨?_, ?_, ?_, ?_, ?_⟩
  · intro e h
    cases h
    cases lsx <;> cases ws <;> cases lu <;> cases cs <;> simp [initClient]
  · intro e h
    cases h
    simp [initClient]
  · intro ls e h1 h2
    cases h1; cases h2
    simp [initClient]
  · intro ls e h1 h2 h3
    cases h1; cases h2; cases h3
    simp [initClient]
  · intro ls e h1 h2 h3 h4
    cases h1; cases h2; cases h3; cases h4
    simp [initClient]

/-- Witness for C6: a bootstrap whose injection fails and whose
store-ready wait then raises propagates the wait's error and never
emits `ready`. -/
theorem C6_witness :
    (initClient ⟨.error "boom", .ok ⟨some "a", some "b", none, none⟩,
        .error "dead", .ok (), .ok ()⟩).outcome = .error "dead" ∧
    Event.ready ∉ (initClient ⟨.error "boom", .ok ⟨some "a", some "b", none, none⟩,
        .error "dead", .ok (), .ok ()⟩).events :=
  (C6_bootstrap_error_handling ⟨.error "boom", .ok ⟨some "a", some "b", none, none⟩,
      .error "dead", .ok (), .ok ()⟩).2.2.1 ⟨some "a", some "b", none, none⟩ "dead" rfl rfl

end WALC
